import Mathlib

/-!
Verification of the AirGradient DIY sensor configuration header
(`src/config.h`): a shallow embedding of the `HardwareOptions` enum,
the `Config` struct and the `CONFIG` instance, with theorems settling
the properties stated in the specification.
-/

/-! ## The hardware-option flags

`enum HardwareOptions { hoCO2 = 0x01, hoPM = 0x02, hoSHT = 0x04 }` from
`src/config.h`.  In C these are plain integer constants; we embed them
as natural numbers. -/

def hoCO2 : Nat := 0x01

def hoPM : Nat := 0x02

def hoSHT : Nat := 0x04

/-- The mask obtained by bitwise OR of the flags of a subset of
{CO2, PM, SHT}: `a`, `b`, `c` say whether each flag is included. -/
def maskOfSubset (a b c : Bool) : Nat :=
  (cond a hoCO2 0) ||| (cond b hoPM 0) ||| (cond c hoSHT 0)

/-! ## The configuration record

`struct Config` from `src/config.h`.  `hardwareOptions` is an
`unsigned char` in the source, so its value is a natural number
reduced modulo 2^8 at initialisation. -/

structure Config where
  hardwareOptions : Nat
  useFarenheit : Bool
  connectWifi : Bool
  wifiSSID : String
  wifiPassword : String
  apiEndpoint : String
  location : String

/-- The global instance `CONFIG` of `src/config.h`, with the source's
positional initialiser; the `unsigned char` field reduces its
initialiser modulo 2^8. -/
def CONFIG : Config :=
  ⟨(hoCO2 ||| hoPM ||| hoSHT) % 2 ^ 8,
   false,
   true,
   "wifi-name",
   "wifi-password",
   "http://127.0.0.1:9000/airquality",
   "office"⟩

/-! ## Field reads

The module's whole interface is reading the fields of `CONFIG`.  We
name the fields and embed a read as a total function into a value
type, and a run of the module as a sequence of read operations. -/

inductive FieldName where
  | hardwareOptions
  | useFarenheit
  | connectWifi
  | wifiSSID
  | wifiPassword
  | apiEndpoint
  | location
deriving DecidableEq

inductive FieldValue where
  | byte (n : Nat)
  | flag (b : Bool)
  | text (s : String)
deriving DecidableEq

def readField (c : Config) : FieldName → FieldValue
  | .hardwareOptions => .byte c.hardwareOptions
  | .useFarenheit => .flag c.useFarenheit
  | .connectWifi => .flag c.connectWifi
  | .wifiSSID => .text c.wifiSSID
  | .wifiPassword => .text c.wifiPassword
  | .apiEndpoint => .text c.apiEndpoint
  | .location => .text c.location

/-- The operations the configuration module exposes: field reads only
(the source declares no setter and no other operation on `Config`). -/
inductive Op where
  | read (f : FieldName)

/-- One step of a run: performing an operation on the current state
yields the next state and the value observed. -/
def step (c : Config) : Op → Config × FieldValue
  | .read f => (c, readField c f)

/-- Running a sequence of operations from a state: the final state and
the values observed, in order. -/
def run (c : Config) : List Op → Config × List FieldValue
  | [] => (c, [])
  | op :: ops =>
      let s := step c op
      let r := run s.1 ops
      (r.1, s.2 :: r.2)

/-- The value an operation observes when the state is `c`. -/
def opResult (c : Config) : Op → FieldValue
  | .read f => readField c f

theorem run_spec (c : Config) (ops : List Op) :
    run c ops = (c, ops.map (opResult c)) := by
  induction ops with
  | nil => rfl
  | cons op ops ih =>
      cases op with
      | read f => simp [run, step, opResult, ih]

/-! ## Well-formed URLs

The specification requires `apiEndpoint` to be a well-formed URL when
`connectWifi` is true; the repository itself contains no URL code. -/

/-- Modelled from the spec: URL validation lives in the external
networking consumers, not in this repository; the spec describes a
well-formed URL as a string with a URL scheme, host, and optional port
and path.  Checks the part after the host: nothing, or a path. -/
def tailOk : List Char → Bool
  | [] => true
  | '/' :: _ => true
  | _ => false

/-- Modelled from the spec: host, then an optional `:port` (digits)
and an optional `/path`. -/
def hostPortPathOk (l : List Char) : Bool :=
  let host := l.takeWhile fun c => c != ':' && c != '/'
  let rest := l.drop host.length
  !host.isEmpty &&
    match rest with
    | [] => true
    | '/' :: _ => true
    | ':' :: t =>
        let port := t.takeWhile Char.isDigit
        !port.isEmpty && tailOk (t.drop port.length)
    | _ => false

/-- Modelled from the spec: a well-formed URL is an alphabetic scheme,
`://`, a host, an optional port and an optional path. -/
def isWellFormedURL (s : String) : Bool :=
  let l := s.data
  let scheme := l.takeWhile Char.isAlpha
  match l.drop scheme.length with
  | ':' :: '/' :: '/' :: t => !scheme.isEmpty && hostPortPathOk t
  | _ => false

/-! ## The first configuration variant

The spec describes two near-duplicate headers; only the second variant
(the one with wifi credential fields) is under `src/`. -/

/-- Modelled from the spec: the first configuration variant's header is
not under `src/`; per the spec's field table it has the fields of
`Config` except the two credentials `wifiSSID` and `wifiPassword`. -/
structure ConfigV1 where
  hardwareOptions : Nat
  useFarenheit : Bool
  connectWifi : Bool
  apiEndpoint : String
  location : String

/-- Dropping the two credential fields of the second variant yields a
record of the first variant's shape. -/
def forgetCredentials (c : Config) : ConfigV1 :=
  ⟨c.hardwareOptions, c.useFarenheit, c.connectWifi, c.apiEndpoint, c.location⟩

/-- Extending a first-variant record with the two credential fields
yields a record of the second variant's shape. -/
def extendWithCredentials (v : ConfigV1) (ssid pass : String) : Config :=
  ⟨v.hardwareOptions, v.useFarenheit, v.connectWifi, ssid, pass,
   v.apiEndpoint, v.location⟩

/-! ## Theorems for the claims -/

/-- C1: the `hardwareOptions` field of `CONFIG` equals the bitwise OR
of exactly the three flags `hoCO2`, `hoPM`, `hoSHT`, i.e. `0x07`. -/
theorem hardwareOptions_is_or_of_flags :
    CONFIG.hardwareOptions = (hoCO2 ||| hoPM ||| hoSHT) ∧
    CONFIG.hardwareOptions = 0x07 := by
  constructor <;> rfl

/-- C2: in `CONFIG`, `useFarenheit` is `false` and `connectWifi` is
`true`. -/
theorem config_bool_fields :
    CONFIG.useFarenheit = false ∧ CONFIG.connectWifi = true :=
  ⟨rfl, rfl⟩

/-- C3: the enumeration assigns `0x01` to `hoCO2`, `0x02` to `hoPM`
and `0x04` to `hoSHT`, and the OR of any combination of the flags fits
in an unsigned 8-bit mask. -/
theorem hardware_flag_values :
    hoCO2 = 0x01 ∧ hoPM = 0x02 ∧ hoSHT = 0x04 ∧
    ∀ a b c : Bool, maskOfSubset a b c < 2 ^ 8 := by
  refine ⟨rfl, rfl, rfl, ?_⟩
  decide

/-- C4: in `CONFIG`, `apiEndpoint` and `location` are non-empty, and,
`connectWifi` being true, `wifiSSID` and `wifiPassword` are non-empty
as well. -/
theorem required_strings_nonempty :
    CONFIG.apiEndpoint ≠ "" ∧ CONFIG.location ≠ "" ∧
    (CONFIG.connectWifi = true →
      CONFIG.wifiSSID ≠ "" ∧ CONFIG.wifiPassword ≠ "") := by
  refine ⟨?_, ?_, fun _ => ⟨?_, ?_⟩⟩ <;> decide

/-- C5: if `CONFIG.connectWifi` is true then `CONFIG.apiEndpoint` is a
well-formed URL (scheme, host, optional port and path). -/
theorem apiEndpoint_wellformed_of_connectWifi
    (h : CONFIG.connectWifi = true) :
    isWellFormedURL CONFIG.apiEndpoint = true := by
  decide

/-- Witness for C5 at the shipped configuration: `connectWifi` is true
and the endpoint is accepted. -/
theorem apiEndpoint_wellformed_witness :
    CONFIG.connectWifi = true ∧ isWellFormedURL CONFIG.apiEndpoint = true :=
  ⟨rfl, apiEndpoint_wellformed_of_connectWifi rfl⟩

/-- C6: the second variant's record shape is exactly the first's plus
the two credential fields: dropping the credentials and re-adding them
is the identity on `Config`, and extending a `ConfigV1` with
credentials then forgetting them recovers it, the credentials being
stored unchanged. -/
theorem configV2_superset_of_configV1 :
    (∀ c : Config,
      extendWithCredentials (forgetCredentials c) c.wifiSSID c.wifiPassword
        = c) ∧
    (∀ (v : ConfigV1) (ssid pass : String),
      forgetCredentials (extendWithCredentials v ssid pass) = v ∧
      (extendWithCredentials v ssid pass).wifiSSID = ssid ∧
      (extendWithCredentials v ssid pass).wifiPassword = pass) :=
  ⟨fun _ => rfl, fun _ _ _ => ⟨rfl, rfl, rfl⟩⟩

/-- C7: the module exposes only reads, so after any sequence of
operations the state is still the initial `CONFIG` and every read
returns the value the field was initialised with. -/
theorem config_reads_immutable (ops : List Op) :
    (run CONFIG ops).1 = CONFIG ∧
    (run CONFIG ops).2 = ops.map (opResult CONFIG) := by
  rw [run_spec]
  exact ⟨rfl, rfl⟩

/-- C8: reading any field of `CONFIG` is total: each read succeeds and
returns a definite value, with no error case. -/
theorem config_read_total (fn : FieldName) :
    readField CONFIG fn =
      (match fn with
       | .hardwareOptions => .byte 7
       | .useFarenheit => .flag false
       | .connectWifi => .flag true
       | .wifiSSID => .text "wifi-name"
       | .wifiPassword => .text "wifi-password"
       | .apiEndpoint => .text "http://127.0.0.1:9000/airquality"
       | .location => .text "office") := by
  cases fn <;> rfl

/-- C9: the three flags are pairwise disjoint bits, the encoding of a
subset of {CO2, PM, SHT} as the OR of its flags is injective, and each
flag's presence is recovered from the mask by bitwise AND. -/
theorem flags_disjoint_injective :
    (hoCO2 &&& hoPM = 0 ∧ hoCO2 &&& hoSHT = 0 ∧ hoPM &&& hoSHT = 0) ∧
    (∀ a b c a' b' c' : Bool,
      maskOfSubset a b c = maskOfSubset a' b' c' →
        a = a' ∧ b = b' ∧ c = c') ∧
    (∀ a b c : Bool,
      (maskOfSubset a b c &&& hoCO2 ≠ 0 ↔ a = true) ∧
      (maskOfSubset a b c &&& hoPM ≠ 0 ↔ b = true) ∧
      (maskOfSubset a b c &&& hoSHT ≠ 0 ↔ c = true)) := by
  refine ⟨⟨rfl, rfl, rfl⟩, ?_, ?_⟩ <;> decide

/-- C10: although `connectWifi` is true, the shipped `CONFIG` holds
placeholder networking values: the literal SSID and password and an
unencrypted loopback endpoint. -/
theorem config_placeholder_values :
    CONFIG.connectWifi = true ∧
    CONFIG.wifiSSID = "wifi-name" ∧
    CONFIG.wifiPassword = "wifi-password" ∧
    CONFIG.apiEndpoint = "http://127.0.0.1:9000/airquality" :=
  ⟨rfl, rfl, rfl, rfl⟩
